import Mathlib

/-!
Verification development for the order-intake bot repository
(src/config.py, src/database.py, src/bot.py, src/backend/routers/bot_config.py).

The Python modules contain several definitions of the same name; by Python module
semantics the LAST definition of each name in a file is the effective one, and the
embeddings below translate those effective definitions.  Where a duplicated or
truncated definition makes the effective behaviour differ from an earlier copy,
the doc comment of the embedding names the source lines it follows.

Database rows are modelled as records, tables as lists in insertion order, MySQL
NOW() as a logical clock, and AUTO_INCREMENT ids as a counter.  Exceptions are
modelled with an explicit error type; operations whose Python body can raise
return Except.
-/

namespace Chel3d

/-- Python exceptions that the embedded code can raise. -/
inductive PyErr
  | attributeError (name : String)
  | valueError (msg : String)
  | keyError (name : String)
  deriving Repr, DecidableEq

/-- A row of the orders table (columns used by src/database.py). -/
structure OrderRec where
  id : Nat
  user_id : Nat
  username : Option String
  full_name : Option String
  branch : String
  status : String
  order_payload : List (String × String)
  summary : Option String
  created_at : Nat
  updated_at : Nat
  deriving Repr, DecidableEq

/-- A row of the order_messages table. -/
structure MessageRec where
  order_id : Nat
  direction : String
  message_text : String
  telegram_message_id : Option Nat
  deriving Repr, DecidableEq

/-- A row of the order_files table. -/
structure FileRec where
  order_id : Nat
  telegram_file_id : String
  telegram_message_id : Option Nat
  original_name : String
  mime_type : Option String
  file_size : Option Nat
  local_path : Option String
  deriving Repr, DecidableEq

/-- The MySQL database state: the three tables touched by the bot plus the
bot_config key/value table, an AUTO_INCREMENT counter for orders and a logical
clock standing for NOW(). -/
structure DB where
  orders : List OrderRec
  bot_config : List (String × String)
  order_messages : List MessageRec
  order_files : List FileRec
  next_id : Nat
  clock : Nat
  deriving Repr, DecidableEq

/-- ALLOWED_STATUSES, src/database.py line 11.  Note that it contains
"submitted" in addition to the five statuses named by the specification. -/
def ALLOWED_STATUSES : List String :=
  ["draft", "new", "submitted", "in_work", "done", "canceled"]

/-- create_order — effective definition, src/database.py lines 143-152
(the earlier copy at lines 60-96 is shadowed).  Inserts a row with status
'draft' and an empty JSON payload and returns lastrowid. -/
def create_order (db : DB) (user_id : Nat) (username full_name : Option String)
    (branch : String) : DB × Nat :=
  let oid := db.next_id
  let row : OrderRec :=
    ⟨oid, user_id, username, full_name, branch, "draft", [], none, db.clock, db.clock⟩
  ({ db with orders := db.orders ++ [row], next_id := oid + 1, clock := db.clock + 1 }, oid)

/-- update_order_payload — effective definition, src/database.py lines 201-206.
Overwrites order_payload, summary and updated_at of the matching row. -/
def update_order_payload (db : DB) (order_id : Nat) (payload : List (String × String))
    (summary : Option String) : DB :=
  { db with
    orders := db.orders.map fun o =>
      if o.id = order_id then
        { o with order_payload := payload, summary := summary, updated_at := db.clock }
      else o,
    clock := db.clock + 1 }

/-- finalize_order — effective definition, src/database.py lines 209-222.
The body executes a SELECT over bot_config and returns the resulting mapping
immediately (lines 211-212); the try/except UPDATE of status and summary below
that return statement is unreachable, so the orders table is left unchanged.
The transaction commits with no pending changes.  (The earlier copy at lines
170-175, which did run an UPDATE, is shadowed by this one.) -/
def finalize_order (db : DB) (order_id : Nat) (summary : Option String) :
    DB × List (String × String) :=
  let _unused := (order_id, summary)
  (db, db.bot_config)

/-- list_orders — effective definition, src/database.py lines 237-239.  The body
is truncated: it computes the WHERE fragment and the parameter list and then the
next def begins, so the function falls off the end and returns None.  (The
complete earlier copy at lines 225-234 is shadowed by this one.) -/
def list_orders (db : DB) (status : Option String) (limit offset : Nat) :
    Option (List OrderRec) :=
  let _whereClause := match status with
    | some _ => "WHERE status=%s"
    | none => ""
  let _params := (status, limit, offset, db.clock)
  none

/-- get_orders_paginated — effective definition, src/database.py lines 396-397:
it delegates to the effective list_orders. -/
def get_orders_paginated (db : DB) (limit offset : Nat) (status_filter : Option String) :
    Option (List OrderRec) :=
  list_orders db status_filter limit offset

/-- get_order, src/database.py lines 266-270: SELECT * FROM orders WHERE id=%s. -/
def get_order (db : DB) (order_id : Nat) : Option OrderRec :=
  db.orders.find? fun o => o.id = order_id

/-- update_order_status — effective definition, src/database.py lines 280-284
(identical to the copy at 273-277): raises ValueError("Unknown status") when the
status is not in ALLOWED_STATUSES, otherwise updates status and updated_at. -/
def update_order_status (db : DB) (order_id : Nat) (status : String) :
    Except PyErr DB :=
  if ALLOWED_STATUSES.contains status then
    .ok { db with
      orders := db.orders.map fun o =>
        if o.id = order_id then { o with status := status, updated_at := db.clock } else o,
      clock := db.clock + 1 }
  else
    .error (.valueError "Unknown status")

/-- add_order_message — effective definition, src/database.py lines 334-343. -/
def add_order_message (db : DB) (order_id : Nat) (direction text : String)
    (telegram_message_id : Option Nat) : DB × Nat :=
  ({ db with
      order_messages := db.order_messages ++ [⟨order_id, direction, text, telegram_message_id⟩],
      clock := db.clock + 1 },
   db.order_messages.length + 1)

/-- add_order_file — effective definition, src/database.py lines 365-383. -/
def add_order_file (db : DB) (order_id : Nat) (file_id filename : String)
    (mime : Option String) (size : Option Nat) (telegram_message_id : Option Nat)
    (local_path : Option String) : DB × Nat :=
  ({ db with
      order_files := db.order_files ++
        [⟨order_id, file_id, telegram_message_id, filename, mime, size, local_path⟩],
      clock := db.clock + 1 },
   db.order_files.length + 1)

/-- find_or_create_active_order — effective definition, src/database.py lines
409-422: picks the order with the greatest id among the caller's orders whose
status is in {draft,new,in_work} (ORDER BY id DESC LIMIT 1; ids are assigned in
increasing insertion order, so that is the last matching row), otherwise creates
a 'dialog'-branch order. -/
def find_or_create_active_order (db : DB) (user_id : Nat)
    (username full_name : Option String) : DB × Nat :=
  let actives := db.orders.filter fun o =>
    o.user_id = user_id ∧ (["draft", "new", "in_work"] : List String).contains o.status
  match actives.getLast? with
  | some o => (db, o.id)
  | none => create_order db user_id username full_name "dialog"

/-! ## The shared cursor context (db_cursor, src/database.py lines 41-52)

db_cursor opens a connection with autocommit=False, runs the body's statements
on the connection's working state, commits if the body finishes and rolls back
and re-raises if any statement raises.  We model a body as a list of statements,
each a partial state transformer, and the connection as a pair of the committed
state and the working state. -/

/-- One SQL statement executed through the shared cursor: it reads and rewrites
the connection's working state or raises. -/
def Stmt : Type := DB → Except PyErr DB

/-- A pymysql connection with autocommit=False: the committed database state and
the connection's working (uncommitted) state. -/
structure Conn where
  committed : DB
  working : DB
  deriving Repr, DecidableEq

/-- Running the statements of a db_cursor body on a connection: each statement
rewrites the working state; the first raising statement stops the body.  The
result is the connection as it stands when the body finishes or raises. -/
def runBody : List Stmt → Conn → Conn × Option PyErr
  | [], c => (c, none)
  | s :: rest, c =>
    match s c.working with
    | .ok w => runBody rest ⟨c.committed, w⟩
    | .error e => (c, some e)

/-- The same statements run directly on a database state, without the
connection; the reference semantics a committed transaction must agree with. -/
def runStmts : List Stmt → DB → Except PyErr DB
  | [], db => .ok db
  | s :: rest, db =>
    match s db with
    | .ok db2 => runStmts rest db2
    | .error e => (.error e)

/-- db_cursor, src/database.py lines 41-52: run the body on a fresh connection;
on success conn.commit() makes the working state the stored state; on an
exception conn.rollback() discards the working state and the exception is
re-raised.  Returns (what the caller sees, the stored state after close). -/
def db_cursor_run (stmts : List Stmt) (db : DB) : Except PyErr DB × DB :=
  match runBody stmts ⟨db, db⟩ with
  | (c, none) => (.ok c.working, c.working)
  | (c, some e) => (.error e, c.committed)

/-! ## src/config.py -/

/-- Settings, src/config.py lines 9-19.  The dataclass declares exactly these
six fields; in particular there is no orders_chat_id, placeholder_photo_path or
internal_api_key field. -/
structure Settings where
  bot_token : String
  mysql_host : String
  mysql_port : Int
  mysql_db : String
  mysql_user : String
  mysql_password : String
  deriving Repr, DecidableEq

/-- The module-level settings value built from environment defaults
(src/config.py lines 11-16 with an empty environment). -/
def default_settings : Settings :=
  ⟨"", "mysql", 3306, "chel3d_db", "chel3d_user", ""⟩

/-- The Python attribute access settings.orders_chat_id: Settings declares no
orders_chat_id field, so the access raises AttributeError. -/
def settings_orders_chat_id (_s : Settings) : Except PyErr String :=
  .error (.attributeError "orders_chat_id")

/-! ## src/bot.py — config helpers -/

/-- bot_cfg — effective definition, src/bot.py lines 46-50: returns
database.get_bot_config(), and an empty mapping if that raises.  The fetch
outcome is passed explicitly. -/
def bot_cfg (fetch : Except PyErr (List (String × String))) : List (String × String) :=
  match fetch with
  | .ok cfg => cfg
  | .error _ => []

/-- get_cfg — effective definition, src/bot.py lines 57-58:
bot_cfg().get(key, default).  Note this copy has no trailing `or default`
(unlike the shadowed copy at lines 43-44), so a key stored with an empty value
is returned as the empty string, not replaced by the default. -/
def get_cfg (fetch : Except PyErr (List (String × String))) (key default : String) : String :=
  ((bot_cfg fetch).lookup key).getD default

/-- get_orders_chat_id — effective definition, src/bot.py lines 70-71:
get_cfg("orders_chat_id", settings.orders_chat_id).  Python evaluates the
default argument first, and Settings has no orders_chat_id field, so the call
raises AttributeError before get_cfg runs. -/
def get_orders_chat_id (s : Settings) (fetch : Except PyErr (List (String × String))) :
    Except PyErr String := do
  let d ← settings_orders_chat_id s
  pure (get_cfg fetch "orders_chat_id" d)

/-- Python str.lower(), character by character (the strings the bot compares
are ASCII, where Char.toLower agrees with Python). -/
def py_lower (s : String) : String :=
  String.mk (s.toList.map Char.toLower)

/-- _to_bool, src/backend/routers/bot_config.py lines 111-114: None or the
empty string give the default, otherwise case-insensitive membership in
{"1","true","yes","on"}. -/
def to_bool (v : Option String) (default : Bool) : Bool :=
  match v with
  | none => default
  | some s =>
    if s = "" then default
    else (["1", "true", "yes", "on"] : List String).contains (py_lower s)

/-! ## src/bot.py — keyboards and summary -/

/-- menu_kb — effective definition, src/bot.py lines 114-122: the main-menu
keyboard always carries these four buttons; no configuration is consulted.
Each button is (caption, callback_data). -/
def menu_kb : List (String × String) :=
  [("📐 Рассчитать печать", "menu:print"),
   ("📡 3D-сканирование", "menu:scan"),
   ("❓ Нет модели / Хочу придумать", "menu:idea"),
   ("ℹ️ О нас", "menu:about")]

/-- The item tags of the main menu actually shown by show_main (src/bot.py
lines 299-306, which always sends menu_kb()): the callback data of each button
with the "menu:" tag removed.  The configuration argument reflects that
show_main runs with some config state in scope; menu_kb does not read it. -/
def menuItemsShown (_cfg : List (String × String)) : List String :=
  menu_kb.map fun b => String.mk (b.2.toList.drop 5)

/-- Modelled from the spec: visibleMenuItems (spec section 4.1) — no such
function exists in src/bot.py; the toggle keys enabled_menu_* are only
defined in src/backend/routers/bot_config.py.  Per the spec's words: the set
{print,scan,idea,about} filtered by the enabled_menu_* toggles (absent/empty
means enabled), with "about" force-included when the filtered set is empty. -/
def visibleMenuItems_spec (cfg : List (String × String)) : List String :=
  let items := (["print", "scan", "idea", "about"] : List String).filter fun it =>
    to_bool (cfg.lookup ("enabled_menu_" ++ it)) true
  if items = [] then ["about"] else items

/-- payload_summary — effective definition, src/bot.py lines 258-284: a header
line naming the branch, then one bullet per populated payload field with its
human label, skipping the branch key and empty values.  (The payload values in
every flow of the bot are strings, so the list-join branch is not modelled.) -/
def payload_summary (payload : List (String × String)) : String :=
  let branch_map : List (String × String) :=
    [("print", "Рассчитать печать"), ("scan", "3D-сканирование"),
     ("idea", "Нет модели / Хочу придумать"), ("dialog", "Диалог")]
  let field_map : List (String × String) :=
    [("technology", "Технология"), ("material", "Материал"),
     ("material_custom", "Другой материал"), ("scan_type", "Тип сканирования"),
     ("idea_type", "Категория"), ("description", "Описание"), ("file", "Файл")]
  let branch := (payload.lookup "branch").getD ""
  let header := "Тип заявки: " ++ ((branch_map.lookup branch).getD branch)
  let parts := payload.filterMap fun p =>
    if p.1 = "branch" ∨ p.2 = "" then none
    else some ("• " ++ ((field_map.lookup p.1).getD p.1) ++ ": " ++ p.2)
  String.intercalate "\n" (header :: parts)

/-! ## src/bot.py — the per-user FSM session

The aiogram FSMContext data dictionary; state.clear() resets every field.
The history list is kept most-recent-first: Python's history.append(x) /
history.pop() push and pop at the same end, modelled here as cons and head. -/

structure SessionData where
  order_id : Option Nat
  payload : List (String × String)
  history : List String
  current_step : Option String
  waiting_text : Option String
  deriving Repr, DecidableEq

/-- The session after state.clear() (or before any flow started). -/
def emptySession : SessionData := ⟨none, [], [], none, none⟩

/-- Python dict assignment payload[key] = value: replaces the value in place if
the key is present, otherwise appends (insertion order preserved). -/
def dict_set (d : List (String × String)) (k v : String) : List (String × String) :=
  if (d.lookup k).isSome then d.map (fun p => if p.1 = k then (k, v) else p)
  else d ++ [(k, v)]

/-- The combined state a handler sees: the database and the caller's session. -/
structure FlowState where
  db : DB
  sess : SessionData
  deriving Repr, DecidableEq

/-! ## src/bot.py — handlers (effective definitions)

Each handler is embedded as a function from the database and the caller's
session (plus the update's data) to the new database, the new session and a
tag describing the message rendered back to the user.  Outbound chat sends are
side effects with no bearing on state and are represented only by those tags. -/

/-- What on_set answers with (src/bot.py lines 645-670).  raisedKeyError marks
the KeyError escaping from persist (src/bot.py line 399: data["order_id"]) when
no order is active. -/
inductive SetReply
  | materialKb
  | describeMaterial
  | attachPrompt
  | describeTask
  | resultStep
  | saved
  | raisedKeyError
  deriving Repr, DecidableEq

/-- What on_text answers with (src/bot.py lines 739-767). -/
inductive TextReply
  | ack
  | attachPrompt
  | resultStep
  | noReply
  | raisedKeyError
  deriving Repr, DecidableEq

/-- What on_file answers with (src/bot.py lines 783-819). -/
inductive FileReply
  | createOrderFirst
  | noReply
  | onlyStlReply
  | resultStep
  deriving Repr, DecidableEq

/-- What on_submit answers with (src/bot.py lines 851-882): success carries
whether the soft warning about the operations chat was appended. -/
inductive SubmitReply
  | noActiveOrder
  | success (warned : Bool)
  | submitFail
  deriving Repr, DecidableEq

/-- The main-menu branches offered by menu_kb (callback data menu:...). -/
inductive Branch
  | print
  | scan
  | idea
  | about
  deriving Repr, DecidableEq

/-- The string tag of a branch. -/
def Branch.tag : Branch → String
  | .print => "print"
  | .scan => "scan"
  | .idea => "idea"
  | .about => "about"

/-- The step dictionary of on_menu, src/bot.py line 604:
{"print": "print_tech", "scan": "scan_type", "idea": "idea_type"}. -/
def branch_entry_step : Branch → String
  | .print => "print_tech"
  | .scan => "scan_type"
  | .idea => "idea_type"
  | .about => "about"

/-- persist — effective definition, src/bot.py lines 397-399: writes the full
payload snapshot plus a fresh summary through update_order_payload.  It reads
data["order_id"] with subscription, so a session without an active order makes
it raise KeyError (the earlier copy at lines 287-293, which checked first, is
shadowed). -/
def persist (db : DB) (sess : SessionData) : DB × Option PyErr :=
  match sess.order_id with
  | none => (db, some (.keyError "order_id"))
  | some oid =>
    (update_order_payload db oid sess.payload (some (payload_summary sess.payload)), none)

/-- The state effect of render_step — effective definition, src/bot.py lines
329-394: unless coming from "back", the current step (when set) is pushed onto
the history; the rendered step becomes the current step.  Sending the step's
text and keyboard is a side effect not represented here. -/
def render_step_state (sess : SessionData) (step : String) (from_back : Bool) : SessionData :=
  let sess1 :=
    if from_back then sess
    else
      { sess with history :=
          match sess.current_step with
          | some c => c :: sess.history
          | none => sess.history }
  { sess1 with current_step := some step }

/-- start_order, src/bot.py lines 309-312: creates a draft order and replaces
the session data with a fresh one holding only the branch. -/
def start_order (db : DB) (uid : Nat) (username full_name : Option String)
    (b : Branch) : DB × SessionData :=
  let r := create_order db uid username full_name b.tag
  (r.1, ⟨some r.2, [("branch", b.tag)], [], none, none⟩)

/-- on_menu — effective definition, src/bot.py lines 597-608 restricted to the
four branches menu_kb can emit: "about" renders the about step without creating
an order; the other branches start an order and render the branch's entry
step. -/
def on_menu (db : DB) (sess : SessionData) (uid : Nat)
    (username full_name : Option String) (b : Branch) : DB × SessionData :=
  match b with
  | .about => (db, render_step_state sess "about" false)
  | _ =>
    let r := start_order db uid username full_name b
    (r.1, render_step_state r.2 (branch_entry_step b) false)

/-- on_set — effective definition, src/bot.py lines 645-670: stores the selected
value into the payload, persists, and answers with the next prompt chosen by the
key.  History and current_step are untouched.  When persist raises (no active
order) the KeyError escapes after the payload was already written to the
session. -/
def on_set (db : DB) (sess : SessionData) (key value : String) :
    DB × SessionData × SetReply :=
  let sess1 := { sess with payload := dict_set sess.payload key value }
  let pr := persist db sess1
  match pr.2 with
  | some _ => (pr.1, sess1, .raisedKeyError)
  | none =>
    if key = "technology" then (pr.1, sess1, .materialKb)
    else if key = "material" then
      if value.startsWith "🤔" then
        (pr.1, { sess1 with waiting_text := some "other_material" }, .describeMaterial)
      else (pr.1, sess1, .attachPrompt)
    else if key = "scan_type" ∨ key = "idea_type" then
      (pr.1, { sess1 with waiting_text := some "description" }, .describeTask)
    else if key = "file" then (pr.1, sess1, .resultStep)
    else (pr.1, sess1, .saved)

/-- on_text — effective definition, src/bot.py lines 739-767.  With no waiting
tag, the text goes to the caller's dialog order; with a waiting tag, the
matching payload field is filled, persisted, and the incoming text is appended
to the order's message log. -/
def on_text (db : DB) (sess : SessionData) (text : String) (uid : Nat)
    (username full_name : Option String) (message_id : Nat) :
    DB × SessionData × TextReply :=
  match sess.waiting_text with
  | none =>
    let r := find_or_create_active_order db uid username full_name
    let db2 := (add_order_message r.1 r.2 "in" text (some message_id)).1
    (db2, sess, .ack)
  | some w =>
    if w = "other_material" then
      let s := { sess with payload := dict_set sess.payload "material_custom" text,
                           waiting_text := none }
      let pr := persist db s
      match pr.2 with
      | some _ => (pr.1, s, .raisedKeyError)
      | none =>
        let db2 := match sess.order_id with
          | some oid => (add_order_message pr.1 oid "in" text (some message_id)).1
          | none => pr.1
        (db2, s, .attachPrompt)
    else if w = "description" then
      let s := { sess with payload := dict_set sess.payload "description" text,
                           waiting_text := none }
      let pr := persist db s
      match pr.2 with
      | some _ => (pr.1, s, .raisedKeyError)
      | none =>
        let db2 := match sess.order_id with
          | some oid => (add_order_message pr.1 oid "in" text (some message_id)).1
          | none => pr.1
        (db2, s, .resultStep)
    else
      let db2 := match sess.order_id with
        | some oid => (add_order_message db oid "in" text (some message_id)).1
        | none => db
      (db2, sess, .noReply)

/-- An uploaded chat document as on_file reads it. -/
structure TgDocument where
  file_id : String
  file_unique_id : String
  file_name : Option String
  mime_type : Option String
  file_size : Option Nat
  deriving Repr, DecidableEq

/-- The extension test of on_file, src/bot.py line 794:
(doc.file_name or "").lower().split(".")[-1] — the characters after the last
dot of the lowercased name (the whole name when it has no dot, empty for a
trailing dot), computed character by character. -/
def ext_of (file_name : String) : String :=
  String.mk ((py_lower file_name).toList.foldl
    (fun acc c => if c = '.' then [] else acc ++ [c]) [])

/-- Python `value or alt` on an optional string: alt when the value is missing
or empty. -/
def py_or_str (v : Option String) (alt : String) : String :=
  match v with
  | none => alt
  | some s => if s = "" then alt else s

/-- on_file — effective definition, src/bot.py lines 783-819: without an active
order, or with a document whose extension is not stl/3mf/obj, it only sends an
explanatory message and changes nothing.  Otherwise it stores the file row,
writes the file name into the payload, persists, and renders the result step.
get_file_ok says whether bot.get_file succeeded: a failure there is caught and
leaves local_path as None (a later download failure is also caught but
local_path was assigned before the download, so only get_file matters). -/
def on_file (db : DB) (sess : SessionData) (doc : Option TgDocument)
    (get_file_ok : Bool) (message_id : Nat) : DB × SessionData × FileReply :=
  match sess.order_id with
  | none => (db, sess, .createOrderFirst)
  | some oid =>
    match doc with
    | none => (db, sess, .noReply)
    | some d =>
      let ext := ext_of ((d.file_name).getD "")
      if (["stl", "3mf", "obj"] : List String).contains ext then
        let shownName := match d.file_name with
          | some n => n
          | none => "None"
        let local_path :=
          if get_file_ok then some ("uploads/" ++ d.file_unique_id ++ "_" ++ shownName)
          else none
        let db1 := (add_order_file db oid d.file_id (py_or_str d.file_name "model")
          d.mime_type d.file_size (some message_id) local_path).1
        let sess1 := { sess with
          payload := dict_set sess.payload "file" (py_or_str d.file_name "model") }
        let db2 := (persist db1 sess1).1
        (db2, sess1, .resultStep)
      else (db, sess, .onlyStlReply)

/-- on_submit — effective definition, src/bot.py lines 851-882, with the whole
body inside try/except.  Without an active order it resets the session.  With
one, it calls finalize_order, logs "Заявка отправлена", and then resolves the
operations chat id; get_orders_chat_id raises AttributeError (Settings has no
orders_chat_id field), which the outer except turns into the text_submit_fail
reply, leaving the session uncleared.  The remaining branch (trim the chat id,
dispatch when non-empty with a failure downgraded to a warning flag, clear the
session) is written out faithfully from lines 865-879 even though the
AttributeError keeps it unreachable.  dispatch_ok says whether
send_order_to_chat would succeed. -/
def on_submit (db : DB) (sess : SessionData) (s : Settings) (dispatch_ok : Bool) :
    DB × SessionData × SubmitReply :=
  match sess.order_id with
  | none => (db, emptySession, .noActiveOrder)
  | some oid =>
    let summ := payload_summary sess.payload
    let db1 := (finalize_order db oid (some summ)).1
    let db2 := (add_order_message db1 oid "in" "Заявка отправлена" none).1
    match get_orders_chat_id s (.ok db2.bot_config) with
    | .error _ => (db2, sess, .submitFail)
    | .ok chat_raw =>
      let chat := chat_raw.trim
      let chat_error := if chat = "" then false else !dispatch_ok
      (db2, emptySession, .success chat_error)

/-- go_back, src/bot.py lines 315-325: with an empty history, show_main clears
the session; otherwise the last pushed step is popped and re-rendered with
from_back=True. -/
def flow_back (fs : FlowState) : FlowState :=
  match fs.sess.history with
  | [] => ⟨fs.db, emptySession⟩
  | p :: rest =>
    ⟨fs.db, render_step_state { fs.sess with history := rest } p true⟩

/-- A user action that is neither "back" nor "menu" nor "submit": a main-menu
branch selection, an about sub-item, an inline selection, a free text, or a
file upload, with the update data each handler reads. -/
inductive ForwardInput
  | menu (b : Branch) (uid : Nat) (username full_name : Option String)
  | aboutItem (key : String)
  | set (key value : String)
  | text (t : String) (uid : Nat) (username full_name : Option String) (message_id : Nat)
  | file (doc : Option TgDocument) (get_file_ok : Bool) (message_id : Nat)
  deriving Repr, DecidableEq

/-- Dispatching one forward input to its handler (on_about_item, src/bot.py
lines 611-620, only sends content and leaves the database and session
untouched). -/
def flow_forward (fs : FlowState) : ForwardInput → FlowState
  | .menu b uid username full_name =>
    let r := on_menu fs.db fs.sess uid username full_name b
    ⟨r.1, r.2⟩
  | .aboutItem _ => fs
  | .set key value =>
    let r := on_set fs.db fs.sess key value
    ⟨r.1, r.2.1⟩
  | .text t uid username full_name message_id =>
    let r := on_text fs.db fs.sess t uid username full_name message_id
    ⟨r.1, r.2.1⟩
  | .file doc get_file_ok message_id =>
    let r := on_file fs.db fs.sess doc get_file_ok message_id
    ⟨r.1, r.2.1⟩

/-- A sequence of forward transitions. -/
def applyForwards (fs : FlowState) (ins : List ForwardInput) : FlowState :=
  ins.foldl flow_forward fs

/-- n consecutive "back" presses. -/
def applyBacks : Nat → FlowState → FlowState
  | 0, fs => fs
  | n + 1, fs => applyBacks n (flow_back fs)

/-! ## Navigation invariants used for the history round-trip -/

/-- The session invariant of the flow: without a current step the history is
empty (main_menu is never tracked in the history). -/
def SessionData.histOk (s : SessionData) : Prop :=
  s.current_step = none → s.history = []

/-- After n forward transitions from the main menu the session either still has
no current step and an empty history, or it has a current step and fewer than n
entries in the history. -/
def goodAt (s : SessionData) (n : Nat) : Prop :=
  (s.current_step = none ∧ s.history = []) ∨ (s.current_step ≠ none ∧ s.history.length < n)

/-! ## Concrete sample states for the closed theorems -/

/-- A freshly created print order, still a draft with no summary. -/
def draft_order : OrderRec :=
  ⟨1, 100, some "alice", some "Alice", "print", "draft", [("branch", "print")], none, 0, 0⟩

/-- Database for the finalize evaluation: one draft order, empty config. -/
def db_c1 : DB := ⟨[draft_order], [], [], [], 2, 1⟩

/-- Database for the submission evaluation: one draft order and a configured
operations chat id. -/
def db_c2 : DB := ⟨[draft_order], [("orders_chat_id", "123")], [], [], 2, 1⟩

/-- A session mid-flow on order 1 with a filled payload. -/
def sess_c2 : SessionData :=
  ⟨some 1, [("branch", "print"), ("technology", "FDM")], [], some "print_tech", none⟩

/-- Database with two orders, for the pagination evaluation. -/
def db_c3 : DB :=
  ⟨[draft_order, ⟨2, 200, none, none, "scan", "new", [], none, 1, 1⟩], [], [], [], 3, 2⟩

/-- The empty database a flow starts from. -/
def db_empty : DB := ⟨[], [], [], [], 1, 0⟩

/-- The flow state right after selecting the print branch from the main menu. -/
def fs_c4 : FlowState :=
  applyForwards ⟨db_empty, emptySession⟩
    [ForwardInput.menu Branch.print 100 (some "alice") (some "Alice")]

/-- A session whose history holds one pushed step. -/
def sess_c4w : SessionData :=
  ⟨some 1, [("branch", "print")], ["print_tech"], some "about", none⟩

/-- Database with one order in status new, for the status-update theorems. -/
def db_c5 : DB := ⟨[⟨1, 100, none, none, "print", "new", [], none, 0, 0⟩], [], [], [], 2, 1⟩

/-- A config state that disables the print menu item. -/
def cfg_c6 : List (String × String) := [("enabled_menu_print", "0")]

/-- Database for the unconfigured-chat submission: no orders_chat_id key. -/
def db_c7 : DB :=
  ⟨[⟨1, 100, some "bob", none, "scan", "draft", [("branch", "scan")], none, 0, 0⟩],
   [], [], [], 2, 1⟩

/-- A session mid-flow on order 1 of db_c7. -/
def sess_c7 : SessionData :=
  ⟨some 1, [("branch", "scan"), ("scan_type", "Предмет")], [], some "scan_type", none⟩

/-- A statement that succeeds (it only advances the clock). -/
def stmt_tick : Stmt := fun db => .ok { db with clock := db.clock + 1 }

/-- A statement that raises. -/
def stmt_boom : Stmt := fun _ => .error (.valueError "boom")

/-- Database and session for the file-upload theorems. -/
def db_c10 : DB := ⟨[draft_order], [], [], [], 2, 1⟩

/-- A session with an active order awaiting a file. -/
def sess_c10 : SessionData :=
  ⟨some 1, [("branch", "print"), ("technology", "FDM"), ("material", "PLA")], [], none, none⟩

/-- An uploaded document whose extension is not a model format. -/
def doc_c10 : TgDocument := ⟨"fid", "uniq", some "model.txt", some "text/plain", some 10⟩

/-! ## Helper lemmas -/

/-- Statements never touch the committed side of the connection: only
conn.commit() (after the body) can move it. -/
theorem runBody_committed (stmts : List Stmt) (c : Conn) :
    (runBody stmts c).1.committed = c.committed := by
  induction stmts generalizing c with
  | nil => rfl
  | cons s rest ih =>
    unfold runBody
    cases h : s c.working with
    | ok w => simpa using ih ⟨c.committed, w⟩
    | error e => simp

/-- The working state of a body run agrees with running the statements directly:
the same final state on success, the same first error on failure. -/
theorem runBody_agrees (stmts : List Stmt) (c : Conn) :
    (∀ db2, runStmts stmts c.working = .ok db2 →
      runBody stmts c = (⟨c.committed, db2⟩, none)) ∧
    (∀ e, runStmts stmts c.working = .error e → (runBody stmts c).2 = some e) := by
  induction stmts generalizing c with
  | nil =>
    constructor
    · intro db2 h
      simp only [runStmts] at h
      cases h
      rfl
    · intro e h
      simp [runStmts] at h
  | cons s rest ih =>
    constructor
    · intro db2 h
      simp only [runStmts] at h
      unfold runBody
      cases hs : s c.working with
      | ok w =>
        rw [hs] at h
        simpa using (ih ⟨c.committed, w⟩).1 db2 h
      | error e =>
        rw [hs] at h
        cases h
    · intro e h
      simp only [runStmts] at h
      unfold runBody
      cases hs : s c.working with
      | ok w =>
        rw [hs] at h
        simpa using (ih ⟨c.committed, w⟩).2 e h
      | error e2 =>
        rw [hs] at h
        cases h
        simp

/-- on_set never touches the history or the current step. -/
theorem on_set_keeps_nav (db : DB) (sess : SessionData) (k v : String) :
    (on_set db sess k v).2.1.history = sess.history ∧
    (on_set db sess k v).2.1.current_step = sess.current_step := by
  unfold on_set persist
  cases sess.order_id <;> simp <;> (repeat' split) <;> simp

/-- on_text never touches the history or the current step. -/
theorem on_text_keeps_nav (db : DB) (sess : SessionData) (t : String) (uid : Nat)
    (username full_name : Option String) (mid : Nat) :
    (on_text db sess t uid username full_name mid).2.1.history = sess.history ∧
    (on_text db sess t uid username full_name mid).2.1.current_step = sess.current_step := by
  unfold on_text persist
  cases sess.waiting_text <;> cases sess.order_id <;> simp <;> (repeat' split) <;> simp

/-- on_file never touches the history or the current step. -/
theorem on_file_keeps_nav (db : DB) (sess : SessionData) (doc : Option TgDocument)
    (g : Bool) (mid : Nat) :
    (on_file db sess doc g mid).2.1.history = sess.history ∧
    (on_file db sess doc g mid).2.1.current_step = sess.current_step := by
  unfold on_file
  cases sess.order_id <;> cases doc <;> simp <;> (repeat' split) <;> simp

/-- goodAt is monotone in its bound. -/
theorem goodAt_mono {s : SessionData} {m n : Nat} (hmn : m ≤ n) (h : goodAt s m) :
    goodAt s n := by
  rcases h with h | ⟨hc, hl⟩
  · exact Or.inl h
  · exact Or.inr ⟨hc, lt_of_lt_of_le hl hmn⟩

/-- goodAt only looks at the history and the current step. -/
theorem goodAt_of_eq {s t : SessionData} (hh : t.history = s.history)
    (hc : t.current_step = s.current_step) {n : Nat} (h : goodAt s n) : goodAt t n := by
  unfold goodAt at h ⊢
  rw [hh, hc]
  exact h

/-- Each forward transition keeps the session good, with the bound grown by
one: only entering "about" mid-flow pushes one history entry, branch entries
reset the history, and the remaining handlers do not touch navigation. -/
theorem flow_forward_good (fs : FlowState) (i : ForwardInput) (n : Nat)
    (h : goodAt fs.sess n) : goodAt (flow_forward fs i).sess (n + 1) := by
  cases i with
  | menu b uid username full_name =>
    cases b with
    | about =>
      cases hcur : fs.sess.current_step with
      | none =>
        rcases h with ⟨_, hh⟩ | ⟨hc, _⟩
        · refine Or.inr ⟨?_, ?_⟩
          · simp [flow_forward, on_menu, render_step_state, hcur]
          · simp [flow_forward, on_menu, render_step_state, hcur, hh]
        · exact absurd hcur hc
      | some c =>
        refine Or.inr ⟨?_, ?_⟩
        · simp [flow_forward, on_menu, render_step_state, hcur]
        · rcases h with ⟨hc, _⟩ | ⟨_, hl⟩
          · rw [hcur] at hc; cases hc
          · simp only [flow_forward, on_menu, render_step_state, hcur]
            simp
            omega
    | print =>
      refine Or.inr ⟨?_, ?_⟩
      · simp [flow_forward, on_menu, start_order, create_order, render_step_state]
      · simp [flow_forward, on_menu, start_order, create_order, render_step_state]
    | scan =>
      refine Or.inr ⟨?_, ?_⟩
      · simp [flow_forward, on_menu, start_order, create_order, render_step_state]
      · simp [flow_forward, on_menu, start_order, create_order, render_step_state]
    | idea =>
      refine Or.inr ⟨?_, ?_⟩
      · simp [flow_forward, on_menu, start_order, create_order, render_step_state]
      · simp [flow_forward, on_menu, start_order, create_order, render_step_state]
  | aboutItem key =>
    exact goodAt_mono (Nat.le_succ n) h
  | set key value =>
    have hk := on_set_keeps_nav fs.db fs.sess key value
    exact goodAt_mono (Nat.le_succ n) (goodAt_of_eq hk.1 hk.2 h)
  | text t uid username full_name mid =>
    have hk := on_text_keeps_nav fs.db fs.sess t uid username full_name mid
    exact goodAt_mono (Nat.le_succ n) (goodAt_of_eq hk.1 hk.2 h)
  | file doc g mid =>
    have hk := on_file_keeps_nav fs.db fs.sess doc g mid
    exact goodAt_mono (Nat.le_succ n) (goodAt_of_eq hk.1 hk.2 h)

/-- A whole sequence of forward transitions keeps the session good. -/
theorem applyForwards_good (ins : List ForwardInput) (fs : FlowState) (n : Nat)
    (h : goodAt fs.sess n) : goodAt (applyForwards fs ins).sess (n + ins.length) := by
  induction ins generalizing fs n with
  | nil => simpa using h
  | cons i rest ih =>
    have h2 := ih (flow_forward fs i) (n + 1) (flow_forward_good fs i n h)
    have he : applyForwards fs (i :: rest) = applyForwards (flow_forward fs i) rest := rfl
    rw [he, List.length_cons, show n + (rest.length + 1) = (n + 1) + rest.length from by omega]
    exact h2

/-- Pressing "back" at the main menu stays at the main menu. -/
theorem applyBacks_empty (n : Nat) (db : DB) :
    applyBacks n ⟨db, emptySession⟩ = ⟨db, emptySession⟩ := by
  induction n with
  | zero => rfl
  | succ k ih => exact ih

/-- With fewer history entries than remaining "back" presses, the backs land on
a cleared session at the main menu. -/
theorem applyBacks_reaches (n : Nat) (fs : FlowState)
    (hok : fs.sess.histOk) (hlt : fs.sess.history.length < n) :
    (applyBacks n fs).sess = emptySession := by
  induction n generalizing fs with
  | zero => exact absurd hlt (Nat.not_lt_zero _)
  | succ k ih =>
    cases hh : fs.sess.history with
    | nil =>
      have hb : flow_back fs = ⟨fs.db, emptySession⟩ := by
        unfold flow_back
        rw [hh]
      show (applyBacks k (flow_back fs)).sess = emptySession
      rw [hb, applyBacks_empty]
    | cons p rest =>
      have hb : flow_back fs =
          ⟨fs.db, render_step_state { fs.sess with history := rest } p true⟩ := by
        unfold flow_back
        rw [hh]
      show (applyBacks k (flow_back fs)).sess = emptySession
      rw [hb]
      apply ih
      · intro hc
        simp [render_step_state] at hc
      · rw [hh] at hlt
        simp only [List.length_cons] at hlt
        simp [render_step_state]
        omega

/-! ## Claims -/

/-- C1: the claim says finalize(orderId, summary) advances a draft order's
status to new (and stores the summary).  The effective finalize_order
(src/database.py lines 209-222) returns the bot_config mapping before its
UPDATE statement, so on a draft order it changes nothing: the database is
returned unchanged, the order's status stays "draft" and its summary stays
NULL — and a second identical call does the same.  This evaluates the code at
that failing input. -/
theorem c1_finalize_order_leaves_draft :
    (finalize_order db_c1 1 (some "Итог")).1 = db_c1 ∧
    ((get_order (finalize_order db_c1 1 (some "Итог")).1 1).map fun o => o.status) =
      some "draft" ∧
    ((get_order (finalize_order db_c1 1 (some "Итог")).1 1).map fun o => o.summary) =
      some none ∧
    (finalize_order (finalize_order db_c1 1 (some "Итог")).1 1 (some "Итог")).1 = db_c1 :=
  ⟨rfl, rfl, rfl, rfl⟩

/-- C2: the claim says that when the dispatch to the operations chat throws,
the order still advances to new and the user still sees success with a soft
warning.  Evaluating the effective on_submit (src/bot.py lines 851-882) on a
submission whose dispatch would throw (dispatch_ok = false, operations chat id
configured as "123"): the handler never reaches the dispatch, because
get_orders_chat_id raises AttributeError (Settings has no orders_chat_id
field) first, the outer except replies with the failure text, the session is
not cleared, and the order's status stays "draft" (finalize_order also never
runs its UPDATE). -/
theorem c2_on_submit_failure_not_contained :
    (on_submit db_c2 sess_c2 default_settings false).2.2 = SubmitReply.submitFail ∧
    (on_submit db_c2 sess_c2 default_settings false).2.1 = sess_c2 ∧
    ((get_order (on_submit db_c2 sess_c2 default_settings false).1 1).map fun o => o.status) =
      some "draft" :=
  ⟨rfl, rfl, rfl⟩

/-- C3: the claim says the paginated order listing returns a sequence of order
records sorted newest first.  The effective get_orders_paginated
(src/database.py lines 396-397) delegates to the effective list_orders (lines
237-239), whose body is truncated and returns None, so the listing returns no
sequence at all even on a database holding orders. -/
theorem c3_get_orders_paginated_returns_none :
    get_orders_paginated db_c3 20 0 none = none ∧
    get_orders_paginated db_c3 20 0 (some "new") = none ∧
    db_c3.orders ≠ [] :=
  ⟨rfl, rfl, by decide⟩

/-- C5 counterexample: the claim says updateStatus fails for every status
outside {draft,new,in_work,done,canceled}.  "submitted" is outside that set,
yet update_order_status (src/database.py lines 280-284) accepts it and performs
the update, because ALLOWED_STATUSES also contains "submitted". -/
theorem c5_update_order_status_accepts_submitted :
    (["draft", "new", "in_work", "done", "canceled"] : List String).contains "submitted"
      = false ∧
    update_order_status db_c5 1 "submitted" =
      .ok ⟨[⟨1, 100, none, none, "print", "submitted", [], none, 0, 1⟩], [], [], [], 2, 2⟩ :=
  ⟨by decide, rfl⟩

/-- C5 amended: update_order_status performs the update exactly for statuses in
ALLOWED_STATUSES = {draft, new, submitted, in_work, done, canceled} — the
matching order's status becomes the requested one and every other order is left
as it was — and fails with ValueError("Unknown status") for every status
outside that six-element set. -/
theorem c5_update_order_status_allowed_set (db : DB) (oid : Nat) (s : String) :
    (s ∈ ALLOWED_STATUSES →
      ∃ db2, update_order_status db oid s = .ok db2 ∧
        (∀ o ∈ db2.orders, o.id = oid → o.status = s) ∧
        (∀ o ∈ db2.orders, o.id ≠ oid → o ∈ db.orders)) ∧
    (s ∉ ALLOWED_STATUSES →
      update_order_status db oid s = .error (.valueError "Unknown status")) := by
  constructor
  · intro hmem
    have hc : ALLOWED_STATUSES.contains s = true := by
      exact List.elem_iff.mpr hmem
    refine ⟨{ db with
        orders := db.orders.map fun o =>
          if o.id = oid then { o with status := s, updated_at := db.clock } else o,
        clock := db.clock + 1 }, ?_, ?_, ?_⟩
    · unfold update_order_status
      rw [hc]
      simp
    · intro o ho hid
      simp only [List.mem_map] at ho
      rcases ho with ⟨o0, _, rfl⟩
      by_cases h0 : o0.id = oid
      · simp [h0]
      · simp only [if_neg h0] at hid ⊢
        exact absurd hid h0
    · intro o ho hid
      simp only [List.mem_map] at ho
      rcases ho with ⟨o0, ho0, rfl⟩
      by_cases h0 : o0.id = oid
      · exfalso
        apply hid
        simp [h0]
      · simpa [h0] using ho0
  · intro hmem
    have hc : ALLOWED_STATUSES.contains s = false := by
      by_contra h
      exact hmem (List.elem_iff.mp (by simpa using h))
    unfold update_order_status
    rw [hc]
    simp

/-- C5 witness: an allowed status ("in_work") goes through on a concrete
database and the matching order carries it afterwards. -/
theorem c5_update_order_status_allowed_set_witness :
    ∃ db2, update_order_status db_c5 1 "in_work" = .ok db2 ∧
      (∀ o ∈ db2.orders, o.id = 1 → o.status = "in_work") ∧
      (∀ o ∈ db2.orders, o.id ≠ 1 → o ∈ db_c5.orders) :=
  (c5_update_order_status_allowed_set db_c5 1 "in_work").1 (by decide)

/-- C6 counterexample: the claim says the main-menu item set is
{print,scan,idea,about} filtered by the enabled_menu_* toggles.  With
enabled_menu_print set to "0" the spec-modelled filter drops "print", but the
menu actually shown (menu_kb via show_main, src/bot.py lines 114-122 and
299-306) still contains all four items: the bot never consults the toggles. -/
theorem c6_menu_ignores_toggles :
    visibleMenuItems_spec cfg_c6 = ["scan", "idea", "about"] ∧
    menuItemsShown cfg_c6 = ["print", "scan", "idea", "about"] ∧
    menuItemsShown cfg_c6 ≠ visibleMenuItems_spec cfg_c6 := by
  refine ⟨by decide, by decide, by decide⟩

/-- C6 amended: for every configuration state the main menu shows exactly the
four items print, scan, idea, about — the enabled_menu_* toggles are never
consulted by the bot — and in particular the menu is never empty. -/
theorem c6_menu_always_all_items (cfg : List (String × String)) :
    menuItemsShown cfg = ["print", "scan", "idea", "about"] ∧
    menuItemsShown cfg ≠ [] :=
  ⟨rfl, fun h => List.noConfusion h⟩

/-- C7: the claim says that with no operations destination configured, the
submission silently skips dispatch, the user gets the successful confirmation
and the order is finalized.  Evaluating the effective on_submit on a database
whose bot_config has no orders_chat_id key: resolving the destination raises
AttributeError (the fallback reads the missing Settings.orders_chat_id field
before get_cfg can run), the outer except replies with the failure text
instead of the confirmation, the session is not cleared, and the order stays
"draft". -/
theorem c7_on_submit_unconfigured_chat_fails :
    db_c7.bot_config.lookup "orders_chat_id" = none ∧
    (on_submit db_c7 sess_c7 default_settings true).2.2 = SubmitReply.submitFail ∧
    (on_submit db_c7 sess_c7 default_settings true).2.1 = sess_c7 ∧
    ((get_order (on_submit db_c7 sess_c7 default_settings true).1 1).map fun o => o.status) =
      some "draft" :=
  ⟨rfl, rfl, rfl, rfl⟩

/-- C4 counterexample: the claim says every forward transition except "back"
pushes the current step onto the history before moving.  After entering the
print branch (current step print_tech, empty history) the forward transition
selecting set:technology:FDM (on_set, src/bot.py lines 645-670) moves the
conversation on to the material prompt but leaves the history empty — it never
pushes "print_tech". -/
theorem c4_forward_set_does_not_push :
    fs_c4.sess.current_step = some "print_tech" ∧
    fs_c4.sess.history = [] ∧
    (flow_forward fs_c4 (ForwardInput.set "technology" "FDM")).sess.history = [] ∧
    (flow_forward fs_c4 (ForwardInput.set "technology" "FDM")).sess.history ≠
      ["print_tech"] :=
  ⟨rfl, rfl, rfl, fun h => List.noConfusion h⟩

/-- C4 amended: only transitions rendered through render_step (entering a
branch from the main menu) push the current step; selection, free-text and
file transitions leave the history and current step unchanged.  "back" pops
the most recent history entry and returns to it, or clears the session back to
main_menu when the history is empty; and still, for any sequence of forward
transitions from the main menu followed by an equal number of "back"
transitions, the session is back at main_menu with an empty history, whatever
branch was taken. -/
theorem c4_back_pop_and_roundtrip :
    (∀ fs : FlowState, fs.sess.history = [] → flow_back fs = ⟨fs.db, emptySession⟩) ∧
    (∀ (fs : FlowState) (p : String) (rest : List String), fs.sess.history = p :: rest →
      (flow_back fs).sess.current_step = some p ∧ (flow_back fs).sess.history = rest) ∧
    (∀ (db : DB) (ins : List ForwardInput),
      (applyBacks ins.length (applyForwards ⟨db, emptySession⟩ ins)).sess = emptySession) := by
  refine ⟨?_, ?_, ?_⟩
  · intro fs h
    unfold flow_back
    rw [h]
  · intro fs p rest h
    unfold flow_back
    rw [h]
    exact ⟨rfl, rfl⟩
  · intro db ins
    cases hins : ins with
    | nil => rfl
    | cons i rest =>
      have hg : goodAt (applyForwards ⟨db, emptySession⟩ ins).sess (0 + ins.length) :=
        applyForwards_good ins ⟨db, emptySession⟩ 0 (Or.inl ⟨rfl, rfl⟩)
      rw [← hins]
      have hn : 1 ≤ ins.length := by
        rw [hins]
        simp
      apply applyBacks_reaches
      · intro hc
        rcases hg with ⟨_, hh⟩ | ⟨hcs, _⟩
        · exact hh
        · exact absurd hc hcs
      · rcases hg with ⟨_, hh⟩ | ⟨_, hl⟩
        · rw [hh]
          simpa using hn
        · omega

/-- C4 witness: popping a one-entry history returns to the recorded step with
the history emptied, at a concrete state. -/
theorem c4_back_pop_and_roundtrip_witness :
    (flow_back ⟨db_c1, sess_c4w⟩).sess.current_step = some "print_tech" ∧
    (flow_back ⟨db_c1, sess_c4w⟩).sess.history = [] :=
  c4_back_pop_and_roundtrip.2.1 ⟨db_c1, sess_c4w⟩ "print_tech" [] rfl

/-- C8 counterexample: the claim says text(k, d) returns d whenever the stored
value is empty.  The effective get_cfg (src/bot.py lines 57-58) has no
`or default`, so a key stored with the empty value yields the empty string,
not the default. -/
theorem c8_get_cfg_returns_empty_value :
    get_cfg (.ok [("welcome_menu_msg", "")]) "welcome_menu_msg" "Привет" = "" ∧
    ("" : String) ≠ "Привет" :=
  ⟨rfl, by decide⟩

/-- C8 amended: get_cfg never throws and is total; it returns the stored value
whenever the key is present — even when that value is empty — and returns the
default exactly when the key is absent or the ConfigStore read failed (the
failure is swallowed by bot_cfg, which degrades to an empty mapping). -/
theorem c8_get_cfg_spec (fetch : Except PyErr (List (String × String)))
    (k d : String) :
    (∀ e, fetch = .error e → get_cfg fetch k d = d) ∧
    ((bot_cfg fetch).lookup k = none → get_cfg fetch k d = d) ∧
    (∀ v, (bot_cfg fetch).lookup k = some v → get_cfg fetch k d = v) := by
  refine ⟨?_, ?_, ?_⟩
  · intro e he
    rw [he]
    rfl
  · intro h
    unfold get_cfg
    rw [h]
    rfl
  · intro v h
    unfold get_cfg
    rw [h]
    rfl

/-- C8 witness: a present key returns its stored value; an absent key returns
the default; a failing store returns the default. -/
theorem c8_get_cfg_spec_witness :
    get_cfg (.ok [("about_text", "Chel3D")]) "about_text" "d" = "Chel3D" ∧
    get_cfg (.ok [("about_text", "Chel3D")]) "welcome_menu_msg" "d" = "d" ∧
    get_cfg (.error (.valueError "down")) "about_text" "d" = "d" :=
  ⟨(c8_get_cfg_spec (.ok [("about_text", "Chel3D")]) "about_text" "d").2.2 "Chel3D" rfl,
   (c8_get_cfg_spec (.ok [("about_text", "Chel3D")]) "welcome_menu_msg" "d").2.1 rfl,
   (c8_get_cfg_spec (.error (.valueError "down")) "about_text" "d").1 (.valueError "down") rfl⟩

/-- C9: every operation running through the shared cursor context db_cursor is
atomic — when all its statements succeed, the committed state is exactly their
composition; when any statement raises mid-operation, the stored state is the
original one (the transaction is rolled back) and the exception is re-raised
to the caller. -/
theorem c9_db_cursor_atomic (stmts : List Stmt) (db : DB) :
    (∀ db2, runStmts stmts db = .ok db2 → db_cursor_run stmts db = (.ok db2, db2)) ∧
    (∀ e, runStmts stmts db = .error e → db_cursor_run stmts db = (.error e, db)) := by
  constructor
  · intro db2 h
    have hb := (runBody_agrees stmts ⟨db, db⟩).1 db2 h
    unfold db_cursor_run
    rw [hb]
  · intro e h
    have hb := (runBody_agrees stmts ⟨db, db⟩).2 e h
    have hcom := runBody_committed stmts ⟨db, db⟩
    unfold db_cursor_run
    rcases hr : runBody stmts ⟨db, db⟩ with ⟨c, o⟩
    rw [hr] at hb hcom
    simp only at hb hcom
    rw [hb]
    rw [← hcom]

/-- C9 witness: a body whose second statement raises leaves the stored state
untouched and re-raises, at a concrete database. -/
theorem c9_db_cursor_atomic_witness :
    db_cursor_run [stmt_tick, stmt_boom] db_empty = (.error (.valueError "boom"), db_empty) :=
  (c9_db_cursor_atomic [stmt_tick, stmt_boom] db_empty).2 (.valueError "boom") rfl

/-- C10: an uploaded document whose (case-insensitively lowered, last
dot-component) extension is not stl/3mf/obj is rejected by on_file with the
explanatory reply and no state change — the database (hence the order_files
table) and the session (hence its payload) are returned exactly as they were,
and the reply is not the result step; the same absence of state change holds
when no order is active in the session. -/
theorem c10_on_file_rejection_no_state_change (db : DB) (sess : SessionData)
    (doc : Option TgDocument) (g : Bool) (mid : Nat) :
    (sess.order_id = none →
      on_file db sess doc g mid = (db, sess, .createOrderFirst)) ∧
    (∀ d oid, sess.order_id = some oid → doc = some d →
      (["stl", "3mf", "obj"] : List String).contains (ext_of ((d.file_name).getD "")) = false →
      on_file db sess doc g mid = (db, sess, .onlyStlReply)) := by
  constructor
  · intro h
    unfold on_file
    rw [h]
  · intro d oid h1 h2 hext
    unfold on_file
    rw [h1, h2]
    simp
    refine ⟨?_, ?_, ?_⟩ <;> intro heq <;> rw [heq] at hext <;> simp at hext

/-- C10 witness: a .txt document on an active order is rejected and everything
is left unchanged. -/
theorem c10_on_file_rejection_witness :
    on_file db_c10 sess_c10 (some doc_c10) true 7 = (db_c10, sess_c10, .onlyStlReply) :=
  (c10_on_file_rejection_no_state_change db_c10 sess_c10 (some doc_c10) true 7).2
    doc_c10 1 rfl rfl (by decide)

end Chel3d
